import Mathlib

/-!
Verification of the weather MCP server (`build/weather-server/index.js`).

The development shallowly embeds the two request handlers of the server —
the read-resource handler and the call-tool handler — together with the
in-memory TTL cache they share.  JavaScript values flowing through the
handlers (tool arguments, upstream JSON payloads, cached payloads) are
modelled by the inductive type `JVal`, which includes `undefined` so that
JavaScript property access and truthiness can be rendered faithfully.
Upstream HTTP traffic (axios) is modelled by an oracle in the environment
`Env`; each handler invocation returns, besides its protocol-level result,
the updated cache and the list of upstream calls it performed, so that
claims about "no upstream call" and "cache untouched" are directly
statable.
-/

set_option autoImplicit false

/-- A JavaScript value as it occurs in this program: the JSON universe
plus `undefined`.  Numbers are modelled as integers (the program only
performs `Math.min`, `|| 3` and `* 8` on them, and every claim under
verification concerns integral day counts). -/
inductive JVal where
  | undefined : JVal
  | null : JVal
  | bool (b : Bool) : JVal
  | num (n : Int) : JVal
  | str (s : String) : JVal
  | arr (xs : List JVal) : JVal
  | obj (fs : List (String × JVal)) : JVal

/-- First binding of a key in a JavaScript object literal's field list. -/
def lookupField (fs : List (String × JVal)) (k : String) : Option JVal :=
  match fs with
  | [] => none
  | (k', v) :: rest => if k' = k then some v else lookupField rest k

/-- The JavaScript `typeof` operator restricted to `JVal`
(`typeof null` is famously `"object"`, and so is `typeof` of any array). -/
def JVal.typeOf : JVal → String
  | .undefined => "undefined"
  | .null => "object"
  | .bool _ => "boolean"
  | .num _ => "number"
  | .str _ => "string"
  | .arr _ => "object"
  | .obj _ => "object"

/-- Is this value `undefined`? -/
def JVal.isUndefined : JVal → Bool
  | .undefined => true
  | _ => false

/-- JavaScript property access `v.k`.  Accessing a property of `undefined`
or `null` throws a `TypeError` (modelled as `.error ()`); a missing
property of an object yields `undefined`; named properties of arrays and
boxed primitives are `undefined` for every name this program uses. -/
def JVal.getProp : JVal → String → Except Unit JVal
  | .undefined, _ => .error ()
  | .null, _ => .error ()
  | .obj fs, k => .ok ((lookupField fs k).getD .undefined)
  | .arr _, _ => .ok .undefined
  | .bool _, _ => .ok .undefined
  | .num _, _ => .ok .undefined
  | .str _, _ => .ok .undefined

/-- JavaScript indexed access `v[i]` for a natural index, with the same
`TypeError` behaviour on `undefined`/`null` and `undefined` for an
out-of-range index. -/
def JVal.getIdx : JVal → Nat → Except Unit JVal
  | .undefined, _ => .error ()
  | .null, _ => .error ()
  | .arr xs, i => .ok ((xs.get? i).getD .undefined)
  | .obj fs, i => .ok ((lookupField fs (toString i)).getD .undefined)
  | .bool _, _ => .ok .undefined
  | .num _, _ => .ok .undefined
  | .str _, _ => .ok .undefined

/-- Two-step property path `v.k1.k2`. -/
def jsPath2 (v : JVal) (k1 k2 : String) : Except Unit JVal :=
  match v.getProp k1 with
  | .error e => .error e
  | .ok a => a.getProp k2

/-- One hexadecimal digit, lower case, for JSON string escapes. -/
def hexDigit (n : Nat) : String :=
  if n < 10 then String.singleton (Char.ofNat (48 + n))
  else String.singleton (Char.ofNat (97 + (n - 10)))

/-- Escape of a single character inside a JSON string literal, as
`JSON.stringify` produces it. -/
def escapeJsonChar (c : Char) : String :=
  if c = '"' then "\\\""
  else if c = '\\' then "\\\\"
  else if c = '\n' then "\\n"
  else if c = '\r' then "\\r"
  else if c = '\t' then "\\t"
  else if c.toNat < 32 then "\\u00" ++ hexDigit (c.toNat / 16) ++ hexDigit (c.toNat % 16)
  else String.singleton c

/-- A JSON string literal with its surrounding quotes. -/
def quoteJson (s : String) : String :=
  "\"" ++ String.join (s.data.map escapeJsonChar) ++ "\""

/-- `n` spaces, the indentation produced by `JSON.stringify(x, null, 2)`
at nesting depth `n / 2`. -/
def spaces (n : Nat) : String :=
  String.mk (List.replicate n ' ')

mutual

/-- `JSON.stringify(v, null, 2)` at current indentation width `ind`:
pretty-printed JSON with two-space indentation.  Object fields whose value
is `undefined` are dropped; an `undefined` array element (or a top-level
`undefined`, which never arises in this program) is rendered as `null`. -/
def stringifyVal (ind : Nat) : JVal → String
  | .undefined => "null"
  | .null => "null"
  | .bool b => if b then "true" else "false"
  | .num n => toString n
  | .str s => quoteJson s
  | .arr xs =>
      match xs with
      | [] => "[]"
      | _ :: _ =>
          "[\n" ++ String.intercalate ",\n" (stringifyItems (ind + 2) xs) ++
            "\n" ++ spaces ind ++ "]"
  | .obj fs =>
      if fs.all (fun kv => kv.2.isUndefined) then "\x7b\x7d"
      else
        "\x7b\n" ++ String.intercalate ",\n" (stringifyFields (ind + 2) fs) ++
          "\n" ++ spaces ind ++ "\x7d"

/-- The rendered elements of a JSON array, each on its own indented line. -/
def stringifyItems (ind : Nat) : List JVal → List String
  | [] => []
  | x :: rest => (spaces ind ++ stringifyVal ind x) :: stringifyItems ind rest

/-- The rendered fields of a JSON object, skipping `undefined` values as
`JSON.stringify` does. -/
def stringifyFields (ind : Nat) : List (String × JVal) → List String
  | [] => []
  | (k, v) :: rest =>
      if v.isUndefined then stringifyFields ind rest
      else (spaces ind ++ quoteJson k ++ ": " ++ stringifyVal ind v) :: stringifyFields ind rest

end

/-- `JSON.stringify(v, null, 2)` as called by both handlers. -/
def jsonStringify (v : JVal) : String :=
  stringifyVal 0 v

example : jsonStringify (JVal.obj [("a", JVal.num 1)]) = "\x7b\n  \"a\": 1\n\x7d" := by rfl
example : jsonStringify (JVal.arr []) = "[]" := by rfl

/-- An entry of the server's in-memory cache:
`\x7b data: ..., timestamp: Date.now() \x7d`. -/
structure CacheEntry where
  data : JVal
  timestamp : Nat

/-- The cache `Map`, modelled as an association list on keys. -/
abbrev Cache := List (String × CacheEntry)

/-- `Map.prototype.get`. -/
def cacheGet : Cache → String → Option CacheEntry
  | [], _ => none
  | (k', e) :: rest, k => if k' = k then some e else cacheGet rest k

/-- `Map.prototype.set`: overwrite the binding when the key is present,
append it otherwise. -/
def cacheSet : Cache → String → CacheEntry → Cache
  | [], k, e => [(k, e)]
  | (k', e') :: rest, k, e =>
      if k' = k then (k, e) :: rest else (k', e') :: cacheSet rest k e

/-- `this.cacheDuration = 5 * 60 * 1000` — five minutes in milliseconds. -/
def cacheDuration : Nat := 5 * 60 * 1000

/-- The freshness check `cached && now - cached.timestamp < this.cacheDuration`
applied to the result of a cache lookup: the cached payload when the entry
exists and is fresh, `none` on a miss or a stale entry. -/
def freshEntry (now : Nat) (cached : Option CacheEntry) : Option JVal :=
  match cached with
  | none => none
  | some e => if now - e.timestamp < cacheDuration then some e.data else none

/-- A JavaScript regex line terminator: the four characters that `.` does
not match (`\n`, `\r`, U+2028, U+2029). -/
def lineTerminator (c : Char) : Bool :=
  c = '\n' || c = '\r' || c = Char.ofNat 0x2028 || c = Char.ofNat 0x2029

/-- `uri.match(/^weather:\/\/(.+)\/current$/)`: the URI must be
`weather://` ++ M ++ `/current` for a non-empty middle M none of whose
characters is a line terminator (JavaScript `.`); the captured group is M.
The anchors make the decomposition unique, so greediness does not affect
the captured value. -/
def matchWeatherUri (uri : String) : Option String :=
  if uri.data.length ≥ 19 ∧ uri.data.take 10 = "weather://".data ∧
      uri.data.drop (uri.data.length - 8) = "/current".data ∧
      ((uri.data.drop 10).take (uri.data.length - 18)).all (fun c => ! lineTerminator c) then
    some (String.mk ((uri.data.drop 10).take (uri.data.length - 18)))
  else
    none

example : matchWeatherUri "weather://London/current" = some "London" := by decide
example : matchWeatherUri "weather://a/b/current" = some "a/b" := by decide
example : matchWeatherUri "weather://a/current/current" = some "a/current" := by decide
example : matchWeatherUri "weather://malformed" = none := by decide
example : matchWeatherUri "weather:///current" = none := by decide

/-- Characterization of the accepted URIs: gluing `weather://`, a
non-empty middle free of line terminators, and `/current` matches, and
the captured segment is exactly the middle. -/
theorem matchWeatherUri_concat (X : List Char) (hne : X ≠ [])
    (hnl : ∀ c ∈ X, lineTerminator c = false) :
    matchWeatherUri (String.mk ("weather://".data ++ X ++ "/current".data)) =
      some (String.mk X) := by
  have hpre : ("weather://".data).length = 10 := by decide
  have hX : 1 ≤ X.length := List.length_pos.mpr hne
  unfold matchWeatherUri
  rw [show (String.mk ("weather://".data ++ X ++ "/current".data)).data
      = "weather://".data ++ X ++ "/current".data from rfl]
  have hlen : ("weather://".data ++ X ++ "/current".data).length = 18 + X.length := by
    simp [List.length_append, hpre]
    omega
  have hdrop10 : ("weather://".data ++ X ++ "/current".data).drop 10
      = X ++ "/current".data := by
    rw [List.append_assoc, List.drop_left' hpre]
  have htake : (("weather://".data ++ X ++ "/current".data).drop 10).take
      (("weather://".data ++ X ++ "/current".data).length - 18) = X := by
    rw [hdrop10, hlen, show 18 + X.length - 18 = X.length from by omega, List.take_left]
  have htake10 : ("weather://".data ++ X ++ "/current".data).take 10
      = "weather://".data := by
    rw [List.append_assoc, List.take_left' hpre]
  have hpreX : ("weather://".data ++ X).length = 10 + X.length := by
    simp [List.length_append, hpre]
    omega
  have hdropSuf : ("weather://".data ++ X ++ "/current".data).drop
      (("weather://".data ++ X ++ "/current".data).length - 8) = "/current".data := by
    rw [hlen, show 18 + X.length - 8 = 10 + X.length from by omega, List.drop_left' hpreX]
  rw [if_pos ⟨by rw [hlen]; omega, htake10, hdropSuf, by
    rw [htake]
    exact List.all_eq_true.mpr fun c hc => by simp [hnl c hc]⟩, htake]

/-- The outcome of one upstream `axios` call: a 2xx response with its
parsed JSON body, an axios error (carrying `error.response?.data.message`
when that chain is defined, and `error.message`), or a non-axios throw. -/
inductive FetchResult where
  | ok (data : JVal)
  | axiosError (respMessage : Option String) (message : String)
  | nonAxiosError

/-- `error.response?.data.message ?? error.message`. -/
def axiosMessage (respMessage : Option String) (message : String) : String :=
  respMessage.getD message

/-- Protocol error codes used by this server (`ErrorCode` of the SDK). -/
inductive ErrorCode where
  | InvalidRequest
  | InvalidParams
  | MethodNotFound
  | InternalError
deriving DecidableEq

/-- The way a handler invocation ends: a successful protocol response, a
thrown `McpError` with code and message, or a re-thrown non-`McpError`
exception propagating out of the handler. -/
inductive HandlerOutcome (α : Type) where
  | ok (v : α)
  | mcpError (code : ErrorCode) (message : String)
  | thrown

/-- One item of a read-resource response's `contents` array. -/
structure ResourceContent where
  uri : String
  mimeType : String
  text : String

/-- A read-resource response. -/
structure ReadResourceResponse where
  contents : List ResourceContent

/-- One item of a call-tool response's `content` array. -/
structure ToolContent where
  type : String
  text : String

/-- A call-tool response; `isError` is `false` when the field is absent in
the JavaScript object. -/
structure ToolResponse where
  content : List ToolContent
  isError : Bool

/-- The per-request environment: the clock readings `Date.now()` and
`new Date().toISOString()`, and the upstream oracle for the two endpoints.
`fetchCurrent city` is `GET weather?q=city`; `fetchForecast city cnt` is
`GET forecast?q=city&cnt=cnt`. -/
structure Env where
  now : Nat
  nowISO : String
  fetchCurrent : String → FetchResult
  fetchForecast : String → Int → FetchResult

/-- Result of running the read-resource handler: its outcome, the cache it
leaves behind, and the list of upstream current-weather queries it issued
(the `q` parameters, in order). -/
structure ReadOutput where
  result : HandlerOutcome ReadResourceResponse
  cache : Cache
  upstreamCalls : List String

/-- Result of running the call-tool handler: its outcome, the cache it
leaves behind, and the list of upstream forecast queries it issued (pairs
of the `q` and `cnt` parameters, in order). -/
structure ToolOutput where
  result : HandlerOutcome ToolResponse
  cache : Cache
  upstreamCalls : List (String × Int)

/-- The cache key `` `current_weather_$\x7bcity\x7d` `` of a resource read. -/
def currentCacheKey (city : String) : String :=
  "current_weather_" ++ city

/-- The access chain `response.data.weather[0].description`. -/
def descriptionPath (data : JVal) : Except Unit JVal :=
  match data.getProp "weather" with
  | .error e => .error e
  | .ok w =>
      match w.getIdx 0 with
      | .error e => .error e
      | .ok w0 => w0.getProp "description"

/-- The normalization of a successful current-conditions response into the
stored snapshot (lines 97–103 of `index.js`): field accesses
`response.data.main.temp`, `response.data.weather[0].description`,
`response.data.main.humidity`, `response.data.wind.speed`, plus the fresh
timestamp `new Date().toISOString()`.  A `TypeError` in any of the access
chains surfaces as `.error ()` (the error carries no payload, so the
JavaScript left-to-right evaluation order is immaterial). -/
def normalizeCurrent (data : JVal) (nowISO : String) : Except Unit JVal :=
  match jsPath2 data "main" "temp", descriptionPath data,
        jsPath2 data "main" "humidity", jsPath2 data "wind" "speed" with
  | .ok temperature, .ok conditions, .ok humidity, .ok windSpeed =>
      .ok (JVal.obj [("temperature", temperature), ("conditions", conditions),
                     ("humidity", humidity), ("wind_speed", windSpeed),
                     ("timestamp", JVal.str nowISO)])
  | _, _, _, _ => .error ()

/-- The read-resource handler (lines 73–121 of `index.js`).  `dec` is the
process's `decodeURIComponent` (a pure platform function, passed as a
parameter); it is partial: on a malformed percent-escape (for example a
stray `%`) `decodeURIComponent` throws a `URIError`, modelled as `none`.
That call (line 78) sits outside the `try`, so the exception propagates
out of the handler (`.thrown`) before any cache access or upstream call.
A `TypeError` raised while destructuring a malformed success payload is
caught by the handler's `catch`, fails `axios.isAxiosError`, and is
re-thrown, hence also `.thrown`. -/
def handleReadResource (dec : String → Option String) (env : Env) (cache : Cache)
    (uri : String) : ReadOutput :=
  match matchWeatherUri uri with
  | none =>
      ⟨.mcpError .InvalidRequest ("Invalid URI format: " ++ uri), cache, []⟩
  | some seg =>
      match dec seg with
      | none => ⟨.thrown, cache, []⟩
      | some city =>
          let cacheKey := currentCacheKey city
          match freshEntry env.now (cacheGet cache cacheKey) with
          | some d =>
              ⟨.ok ⟨[⟨uri, "application/json", jsonStringify d⟩]⟩, cache, []⟩
          | none =>
              match env.fetchCurrent city with
              | .ok data =>
                  match normalizeCurrent data env.nowISO with
                  | .ok weatherData =>
                      ⟨.ok ⟨[⟨uri, "application/json", jsonStringify weatherData⟩]⟩,
                        cacheSet cache cacheKey ⟨weatherData, env.now⟩, [city]⟩
                  | .error _ => ⟨.thrown, cache, [city]⟩
              | .axiosError rm m =>
                  ⟨.mcpError .InternalError ("Weather API error: " ++ axiosMessage rm m),
                    cache, [city]⟩
              | .nonAxiosError => ⟨.thrown, cache, [city]⟩

/-- When the URI matches but `decodeURIComponent` throws on the city
segment (line 78, outside the `try`), the exception propagates out of the
handler: the cache is untouched and no upstream call is made. -/
theorem handleReadResource_decode_failure (dec : String → Option String)
    (env : Env) (cache : Cache) (uri seg : String)
    (hmatch : matchWeatherUri uri = some seg) (hdec : dec seg = none) :
    handleReadResource dec env cache uri = ⟨.thrown, cache, []⟩ := by
  simp [handleReadResource, hmatch, hdec]

/-- `isValidForecastArgs` (lines 10–13 of `index.js`):
`typeof args === 'object' && args !== null && typeof args.city === 'string'
&& (args.days === undefined || typeof args.days === 'number')`.
Property access is total here because the first two conjuncts rule out
`undefined` and `null`. -/
def isValidForecastArgs (args : JVal) : Bool :=
  args.typeOf == "object" &&
  !(match args with | .null => true | _ => false) &&
  (match args.getProp "city" with
   | .ok v => v.typeOf == "string"
   | .error _ => false) &&
  (match args.getProp "days" with
   | .ok v => v.isUndefined || v.typeOf == "number"
   | .error _ => false)

/-- The `city` of validated forecast arguments (a string by validation;
the fallback is unreachable). -/
def cityOfArgs (args : JVal) : String :=
  match args.getProp "city" with
  | .ok (.str s) => s
  | _ => ""

/-- The `days` property of the arguments, `undefined` when absent. -/
def daysArgOf (args : JVal) : JVal :=
  match args.getProp "days" with
  | .ok v => v
  | .error _ => .undefined

/-- `Math.min(request.params.arguments.days || 3, 5)` on a validated
`days` (a number or `undefined`): `0` is falsy in JavaScript, so `0 || 3`
is `3`, as is `undefined || 3`; the result is then clamped to at most 5.
No lower bound is applied to a non-zero number. -/
def effectiveDays (daysArg : JVal) : Int :=
  min (match daysArg with
       | .num n => if n = 0 then 3 else n
       | _ => 3)
      5

/-- The cache key `` `forecast_$\x7bcity\x7d_$\x7bdays\x7d` `` of a tool
call, with `days` already clamped. -/
def forecastCacheKey (city : String) (days : Int) : String :=
  "forecast_" ++ city ++ "_" ++ toString days

/-- The call-tool handler (lines 153–206 of `index.js`). -/
def handleCallTool (env : Env) (cache : Cache) (name : String) (args : JVal) :
    ToolOutput :=
  if name ≠ "get_forecast" then
    ⟨.mcpError .MethodNotFound ("Unknown tool: " ++ name), cache, []⟩
  else if !isValidForecastArgs args then
    ⟨.mcpError .InvalidParams "Invalid forecast arguments", cache, []⟩
  else
    let city := cityOfArgs args
    let days := effectiveDays (daysArgOf args)
    let cacheKey := forecastCacheKey city days
    match freshEntry env.now (cacheGet cache cacheKey) with
    | some d =>
        ⟨.ok ⟨[⟨"text", jsonStringify d⟩], false⟩, cache, []⟩
    | none =>
        match env.fetchForecast city (days * 8) with
        | .ok data =>
            match data.getProp "list" with
            | .ok lst =>
                ⟨.ok ⟨[⟨"text", jsonStringify lst⟩], false⟩,
                  cacheSet cache cacheKey ⟨lst, env.now⟩, [(city, days * 8)]⟩
            | .error _ => ⟨.thrown, cache, [(city, days * 8)]⟩
        | .axiosError rm m =>
            ⟨.ok ⟨[⟨"text", "Weather API error: " ++ axiosMessage rm m⟩], true⟩,
              cache, [(city, days * 8)]⟩
        | .nonAxiosError => ⟨.thrown, cache, [(city, days * 8)]⟩

/-- Spec-side shape predicate for the forecast arguments, written from the
spec's words ("must be a non-null structured value with a string `city`;
`days`, if present, must be a number") — to be compared with the source's
`isValidForecastArgs`.  "Structured value" is a non-null object in the
JavaScript sense, which includes arrays. -/
def specValidForecastArgs (args : JVal) : Bool :=
  (match args with
   | .obj _ => true
   | .arr _ => true
   | _ => false) &&
  (match args.getProp "city" with
   | .ok (.str _) => true
   | _ => false) &&
  (match args.getProp "days" with
   | .ok .undefined => true
   | .ok (.num _) => true
   | _ => false)

/-- The source's validator and the spec's shape predicate agree on every
value. -/
theorem isValidForecastArgs_eq_spec (args : JVal) :
    isValidForecastArgs args = specValidForecastArgs args := by
  cases args with
  | obj fs =>
      simp only [isValidForecastArgs, specValidForecastArgs, JVal.typeOf, JVal.getProp]
      cases h1 : (lookupField fs "city").getD .undefined <;>
        cases h2 : (lookupField fs "days").getD .undefined <;>
          simp [JVal.typeOf, JVal.isUndefined]
  | arr xs => rfl
  | undefined => rfl
  | null => rfl
  | bool b => rfl
  | num n => rfl
  | str s => rfl

/-- Reading back the key just written. -/
theorem cacheGet_cacheSet_self (c : Cache) (k : String) (e : CacheEntry) :
    cacheGet (cacheSet c k e) k = some e := by
  induction c with
  | nil => simp [cacheSet, cacheGet]
  | cons kv rest ih =>
      obtain ⟨k', e'⟩ := kv
      by_cases h : k' = k <;> simp [cacheSet, cacheGet, h, ih]

/-- A sample well-formed upstream current-conditions payload; it carries
its own upstream timestamp field `dt`, which the normalization ignores. -/
def sampleCurrentData : JVal :=
  JVal.obj [("main", JVal.obj [("temp", JVal.num 20), ("humidity", JVal.num 50)]),
            ("weather", JVal.arr [JVal.obj [("description", JVal.str "clear sky")]]),
            ("wind", JVal.obj [("speed", JVal.num 3)]),
            ("dt", JVal.num 1700000000)]

/-- The snapshot the handler builds from `sampleCurrentData` at the sample
clock reading. -/
def sampleSnapshot : JVal :=
  JVal.obj [("temperature", JVal.num 20), ("conditions", JVal.str "clear sky"),
            ("humidity", JVal.num 50), ("wind_speed", JVal.num 3),
            ("timestamp", JVal.str "2026-01-01T00:00:00.000Z")]

/-- A sample well-formed upstream forecast payload. -/
def sampleForecastData : JVal :=
  JVal.obj [("list", JVal.arr [JVal.obj [("dt", JVal.num 1700000000)]])]

/-- A sample environment whose upstream calls succeed. -/
def sampleEnv : Env :=
  ⟨1000, "2026-01-01T00:00:00.000Z",
   fun _ => .ok sampleCurrentData,
   fun _ _ => .ok sampleForecastData⟩

/-- A sample environment, 1 second later, whose upstream calls all fail
with an axios error. -/
def failEnv : Env :=
  ⟨2000, "2026-01-01T00:00:01.000Z",
   fun _ => .axiosError (some "city not found") "Request failed with status code 404",
   fun _ _ => .axiosError (some "city not found") "Request failed with status code 404"⟩

/-- C6: a read-resource request whose URI does not match
`weather://<city-segment>/current` fails with an invalid-request error
whose message carries the offending URI; the cache is untouched and no
upstream call is made. -/
theorem claim_c6_malformed_uri_rejected (dec : String → Option String) (env : Env)
    (cache : Cache) (uri : String) (hmatch : matchWeatherUri uri = none) :
    handleReadResource dec env cache uri =
      ⟨.mcpError .InvalidRequest ("Invalid URI format: " ++ uri), cache, []⟩ := by
  simp [handleReadResource, hmatch]

/-- Witness for C6 at the spec's own example, a URI lacking the
`/current` suffix. -/
theorem claim_c6_witness :
    handleReadResource some sampleEnv [] "weather://malformed" =
      ⟨.mcpError .InvalidRequest ("Invalid URI format: " ++ "weather://malformed"),
       [], []⟩ :=
  claim_c6_malformed_uri_rejected some sampleEnv [] "weather://malformed" (by decide)

/-- C5: a call-tool request with a tool name other than `get_forecast` is
rejected with a method-not-found error; with the right name, arguments
that are not a non-null structured value with a string `city` and an
absent-or-number `days` are rejected with an invalid-params error; both
rejections leave the cache unchanged and perform no upstream call. -/
theorem claim_c5_tool_rejections (env : Env) (cache : Cache) (name : String)
    (args : JVal) :
    (name ≠ "get_forecast" →
      handleCallTool env cache name args =
        ⟨.mcpError .MethodNotFound ("Unknown tool: " ++ name), cache, []⟩) ∧
    (specValidForecastArgs args = false →
      handleCallTool env cache "get_forecast" args =
        ⟨.mcpError .InvalidParams "Invalid forecast arguments", cache, []⟩) := by
  constructor
  · intro h
    simp [handleCallTool, h]
  · intro h
    have hv : isValidForecastArgs args = false := by
      rw [isValidForecastArgs_eq_spec]
      exact h
    simp [handleCallTool, hv]

/-- Witness for C5: an unknown tool name, and `null` arguments. -/
theorem claim_c5_witness :
    handleCallTool sampleEnv [] "other_tool" JVal.null =
      ⟨.mcpError .MethodNotFound ("Unknown tool: " ++ "other_tool"), [], []⟩ ∧
    handleCallTool sampleEnv [] "get_forecast" JVal.null =
      ⟨.mcpError .InvalidParams "Invalid forecast arguments", [], []⟩ :=
  ⟨(claim_c5_tool_rejections sampleEnv [] "other_tool" JVal.null).1 (by decide),
   (claim_c5_tool_rejections sampleEnv [] "get_forecast" JVal.null).2 (by decide)⟩

/-- C7, counterexample: the claimed 1–5 range on `days` is not part of
validation.  `days: 7` lies outside the advertised range, yet
`isValidForecastArgs` accepts the arguments and the handler proceeds to
the upstream call (asking for 40 samples after the later clamp). -/
theorem claim_c7_counterexample :
    isValidForecastArgs (JVal.obj [("city", JVal.str "London"), ("days", JVal.num 7)])
      = true ∧
    ¬ ((7 : Int) ≤ 5) ∧
    (handleCallTool sampleEnv [] "get_forecast"
        (JVal.obj [("city", JVal.str "London"), ("days", JVal.num 7)])).upstreamCalls
      = [("London", 40)] := by
  refine ⟨by decide, by decide, ?_⟩
  rfl

/-- C7, amended: the accepted argument shape is exactly
\x7b city: string (required), days: number (optional) \x7d — any number is
accepted for `days`; the 1–5 bound appears only in the advertised input
schema and is not validated. -/
theorem claim_c7_amended_shape (args : JVal) :
    isValidForecastArgs args = true ↔ specValidForecastArgs args = true := by
  rw [isValidForecastArgs_eq_spec]

/-- C4, counterexample: a supplied day count of 0 is falsy in JavaScript,
so `days || 3` replaces it by the default 3 — it is not passed through
unmodified: the upstream sample count is 24, not 0 · 8. -/
theorem claim_c4_counterexample :
    effectiveDays (JVal.num 0) = 3 ∧
    (handleCallTool sampleEnv [] "get_forecast"
        (JVal.obj [("city", JVal.str "London"), ("days", JVal.num 0)])).upstreamCalls
      = [("London", 24)] ∧
    ¬ ((24 : Int) = 0 * 8) := by
  refine ⟨by decide, ?_, by decide⟩
  rfl

/-- C4, amended: no lower-bound clamp is applied to a negative day count —
it reaches the cache key and the upstream sample-count computation
unmodified — while a day count of 0, being falsy, is replaced by the
default 3. -/
theorem claim_c4_amended_lower_bound (env : Env) (cache : Cache) (city : String)
    (n : Int) (hneg : n < 0)
    (hmiss : freshEntry env.now (cacheGet cache (forecastCacheKey city n)) = none) :
    effectiveDays (JVal.num n) = n ∧
    (handleCallTool env cache "get_forecast"
        (JVal.obj [("city", JVal.str city), ("days", JVal.num n)])).upstreamCalls
      = [(city, n * 8)] ∧
    effectiveDays (JVal.num 0) = 3 := by
  have hne : n ≠ 0 := by omega
  have heff : effectiveDays (JVal.num n) = n := by
    simp [effectiveDays, hne]
    omega
  refine ⟨heff, ?_, by decide⟩
  have hv : isValidForecastArgs (JVal.obj [("city", JVal.str city), ("days", JVal.num n)])
      = true := by
    simp [isValidForecastArgs, JVal.typeOf, JVal.getProp, lookupField, JVal.isUndefined]
  have hcity : cityOfArgs (JVal.obj [("city", JVal.str city), ("days", JVal.num n)])
      = city := by
    simp [cityOfArgs, JVal.getProp, lookupField]
  have hdays : daysArgOf (JVal.obj [("city", JVal.str city), ("days", JVal.num n)])
      = JVal.num n := by
    simp [daysArgOf, JVal.getProp, lookupField]
  simp only [handleCallTool, hv, hcity, hdays, heff, hmiss]
  cases hf : env.fetchForecast city (n * 8) with
  | ok d =>
      cases hl : d.getProp "list" with
      | ok lst => simp [hf, hl]
      | error e => simp [hf, hl]
  | axiosError rm m => simp [hf]
  | nonAxiosError => simp [hf]

/-- Witness for C4's amended theorem at `days = -2`. -/
theorem claim_c4_amended_witness :
    effectiveDays (JVal.num (-2)) = -2 ∧
    (handleCallTool sampleEnv [] "get_forecast"
        (JVal.obj [("city", JVal.str "X"), ("days", JVal.num (-2))])).upstreamCalls
      = [("X", -2 * 8)] ∧
    effectiveDays (JVal.num 0) = 3 :=
  claim_c4_amended_lower_bound sampleEnv [] "X" (-2) (by decide) (by rfl)

/-- C2: for a valid `get_forecast` call that reaches the upstream, the
sample count sent upstream is the effective day count times 8, and the
payload is stored under the cache key `forecast_<city>_<effective-days>`;
an absent `days` gives an effective day count of 3 (24 samples) and
`days: 7` is clamped to 5 (40 samples). -/
theorem claim_c2_forecast_days_and_samples (env : Env) (cache : Cache)
    (args : JVal) (d lst : JVal)
    (hvalid : isValidForecastArgs args = true)
    (hmiss : freshEntry env.now (cacheGet cache
        (forecastCacheKey (cityOfArgs args) (effectiveDays (daysArgOf args)))) = none)
    (hfetch : env.fetchForecast (cityOfArgs args)
        (effectiveDays (daysArgOf args) * 8) = .ok d)
    (hlist : d.getProp "list" = .ok lst) :
    (handleCallTool env cache "get_forecast" args).upstreamCalls =
        [(cityOfArgs args, effectiveDays (daysArgOf args) * 8)] ∧
    cacheGet (handleCallTool env cache "get_forecast" args).cache
        (forecastCacheKey (cityOfArgs args) (effectiveDays (daysArgOf args)))
      = some ⟨lst, env.now⟩ ∧
    (daysArgOf args = JVal.undefined →
      effectiveDays (daysArgOf args) = 3 ∧
      (handleCallTool env cache "get_forecast" args).upstreamCalls =
        [(cityOfArgs args, 24)]) ∧
    (daysArgOf args = JVal.num 7 →
      effectiveDays (daysArgOf args) = 5 ∧
      (handleCallTool env cache "get_forecast" args).upstreamCalls =
        [(cityOfArgs args, 40)]) := by
  have hout : handleCallTool env cache "get_forecast" args =
      ⟨.ok ⟨[⟨"text", jsonStringify lst⟩], false⟩,
       cacheSet cache (forecastCacheKey (cityOfArgs args) (effectiveDays (daysArgOf args)))
         ⟨lst, env.now⟩,
       [(cityOfArgs args, effectiveDays (daysArgOf args) * 8)]⟩ := by
    simp [handleCallTool, hvalid, hmiss, hfetch, hlist]
  refine ⟨by rw [hout], by rw [hout]; exact cacheGet_cacheSet_self _ _ _, ?_, ?_⟩
  · intro h
    rw [hout, h]
    exact ⟨rfl, rfl⟩
  · intro h
    rw [hout, h]
    exact ⟨rfl, rfl⟩

/-- Witness for C2 with city "London" and `days` absent. -/
theorem claim_c2_witness :
    (handleCallTool sampleEnv [] "get_forecast"
        (JVal.obj [("city", JVal.str "London")])).upstreamCalls =
      [(cityOfArgs (JVal.obj [("city", JVal.str "London")]),
        effectiveDays (daysArgOf (JVal.obj [("city", JVal.str "London")])) * 8)] ∧
    cacheGet (handleCallTool sampleEnv [] "get_forecast"
        (JVal.obj [("city", JVal.str "London")])).cache
        (forecastCacheKey (cityOfArgs (JVal.obj [("city", JVal.str "London")]))
          (effectiveDays (daysArgOf (JVal.obj [("city", JVal.str "London")]))))
      = some ⟨JVal.arr [JVal.obj [("dt", JVal.num 1700000000)]], sampleEnv.now⟩ ∧
    (daysArgOf (JVal.obj [("city", JVal.str "London")]) = JVal.undefined →
      effectiveDays (daysArgOf (JVal.obj [("city", JVal.str "London")])) = 3 ∧
      (handleCallTool sampleEnv [] "get_forecast"
          (JVal.obj [("city", JVal.str "London")])).upstreamCalls =
        [(cityOfArgs (JVal.obj [("city", JVal.str "London")]), 24)]) ∧
    (daysArgOf (JVal.obj [("city", JVal.str "London")]) = JVal.num 7 →
      effectiveDays (daysArgOf (JVal.obj [("city", JVal.str "London")])) = 5 ∧
      (handleCallTool sampleEnv [] "get_forecast"
          (JVal.obj [("city", JVal.str "London")])).upstreamCalls =
        [(cityOfArgs (JVal.obj [("city", JVal.str "London")]), 40)]) :=
  claim_c2_forecast_days_and_samples sampleEnv [] (JVal.obj [("city", JVal.str "London")])
    sampleForecastData (JVal.arr [JVal.obj [("dt", JVal.num 1700000000)]])
    (by decide) (by rfl) (by rfl) (by rfl)

/-- C3: upstream failures are reported asymmetrically — a read-resource
request aborts with an internal-error fault carrying the upstream's
message, while a `get_forecast` call returns a successful protocol
response whose content is an error-describing text block flagged with
`isError: true`. -/
theorem claim_c3_asymmetric_failure (dec : String → Option String) (env : Env)
    (cache : Cache) (uri seg city : String) (args : JVal) (rm : Option String) (m : String)
    (hmatch : matchWeatherUri uri = some seg)
    (hdec : dec seg = some city)
    (hmissR : freshEntry env.now (cacheGet cache (currentCacheKey city)) = none)
    (hfailR : env.fetchCurrent city = .axiosError rm m)
    (hvalid : isValidForecastArgs args = true)
    (hmissT : freshEntry env.now (cacheGet cache
        (forecastCacheKey (cityOfArgs args) (effectiveDays (daysArgOf args)))) = none)
    (hfailT : env.fetchForecast (cityOfArgs args)
        (effectiveDays (daysArgOf args) * 8) = .axiosError rm m) :
    (handleReadResource dec env cache uri).result =
        .mcpError .InternalError ("Weather API error: " ++ axiosMessage rm m) ∧
    (handleCallTool env cache "get_forecast" args).result =
        .ok ⟨[⟨"text", "Weather API error: " ++ axiosMessage rm m⟩], true⟩ := by
  constructor
  · simp [handleReadResource, hmatch, hdec, hmissR, hfailR]
  · simp [handleCallTool, hvalid, hmissT, hfailT]

/-- Witness for C3 at the spec's simulated-failure scenario. -/
theorem claim_c3_witness :
    (handleReadResource some failEnv [] "weather://Nowhere/current").result =
        .mcpError .InternalError
          ("Weather API error: " ++
            axiosMessage (some "city not found") "Request failed with status code 404") ∧
    (handleCallTool failEnv [] "get_forecast"
        (JVal.obj [("city", JVal.str "Nowhere")])).result =
        .ok ⟨[⟨"text", "Weather API error: " ++
              axiosMessage (some "city not found") "Request failed with status code 404"⟩],
             true⟩ :=
  claim_c3_asymmetric_failure some failEnv [] "weather://Nowhere/current" "Nowhere"
    "Nowhere" (JVal.obj [("city", JVal.str "Nowhere")]) (some "city not found")
    "Request failed with status code 404"
    (by decide) (by rfl) (by rfl) (by rfl) (by decide) (by rfl) (by rfl)

/-- C1: after a read-resource request whose upstream fetch succeeded and
stored a snapshot, any read-resource request for the same URI handled
strictly less than the TTL later returns the same pretty-printed JSON
text (the whole result is equal, hence byte-identical), leaves the cache
unchanged, and performs no upstream call. -/
theorem claim_c1_cache_hit_within_ttl (dec : String → Option String) (env1 env2 : Env)
    (cache : Cache) (uri seg city : String) (d wd : JVal)
    (hmatch : matchWeatherUri uri = some seg)
    (hdec : dec seg = some city)
    (hmiss : freshEntry env1.now (cacheGet cache (currentCacheKey city)) = none)
    (hfetch : env1.fetchCurrent city = .ok d)
    (hnorm : normalizeCurrent d env1.nowISO = .ok wd)
    (httl : env2.now - env1.now < cacheDuration) :
    (handleReadResource dec env1 cache uri).result =
        .ok ⟨[⟨uri, "application/json", jsonStringify wd⟩]⟩ ∧
    handleReadResource dec env2 (handleReadResource dec env1 cache uri).cache uri =
      ⟨(handleReadResource dec env1 cache uri).result,
       (handleReadResource dec env1 cache uri).cache, []⟩ := by
  have hout1 : handleReadResource dec env1 cache uri =
      ⟨.ok ⟨[⟨uri, "application/json", jsonStringify wd⟩]⟩,
       cacheSet cache (currentCacheKey city) ⟨wd, env1.now⟩, [city]⟩ := by
    simp [handleReadResource, hmatch, hdec, hmiss, hfetch, hnorm]
  have hget := cacheGet_cacheSet_self cache (currentCacheKey city) ⟨wd, env1.now⟩
  constructor
  · rw [hout1]
  · rw [hout1]
    simp [handleReadResource, hmatch, hdec, hget, freshEntry, httl]

/-- Witness for C1: fetch London at time 1000 ms, read again at 2000 ms. -/
theorem claim_c1_witness :
    (handleReadResource some sampleEnv [] "weather://London/current").result =
        .ok ⟨[⟨"weather://London/current", "application/json",
              jsonStringify sampleSnapshot⟩]⟩ ∧
    handleReadResource some failEnv
        (handleReadResource some sampleEnv [] "weather://London/current").cache
        "weather://London/current" =
      ⟨(handleReadResource some sampleEnv [] "weather://London/current").result,
       (handleReadResource some sampleEnv [] "weather://London/current").cache, []⟩ :=
  claim_c1_cache_hit_within_ttl some sampleEnv failEnv [] "weather://London/current"
    "London" "London" sampleCurrentData sampleSnapshot
    (by decide) (by rfl) (by rfl) (by rfl) (by rfl) (by decide)

/-- C8: on a cache miss (or stale entry) with a successful upstream fetch,
the snapshot that is returned and freshly cached maps `main.temp` to
`temperature`, `weather[0].description` to `conditions`, `main.humidity`
to `humidity` and `wind.speed` to `wind_speed`, and its `timestamp` is the
read-time clock value `env.nowISO`, not anything from the upstream
payload. -/
theorem claim_c8_snapshot_normalization (dec : String → Option String) (env : Env)
    (cache : Cache) (uri seg city : String) (d wd : JVal)
    (hmatch : matchWeatherUri uri = some seg)
    (hdec : dec seg = some city)
    (hmiss : freshEntry env.now (cacheGet cache (currentCacheKey city)) = none)
    (hfetch : env.fetchCurrent city = .ok d)
    (hnorm : normalizeCurrent d env.nowISO = .ok wd) :
    (handleReadResource dec env cache uri).result =
        .ok ⟨[⟨uri, "application/json", jsonStringify wd⟩]⟩ ∧
    cacheGet (handleReadResource dec env cache uri).cache (currentCacheKey city)
      = some ⟨wd, env.now⟩ ∧
    ∃ t c h w, jsPath2 d "main" "temp" = .ok t ∧ descriptionPath d = .ok c ∧
      jsPath2 d "main" "humidity" = .ok h ∧ jsPath2 d "wind" "speed" = .ok w ∧
      wd = JVal.obj [("temperature", t), ("conditions", c), ("humidity", h),
                     ("wind_speed", w), ("timestamp", JVal.str env.nowISO)] := by
  have hout : handleReadResource dec env cache uri =
      ⟨.ok ⟨[⟨uri, "application/json", jsonStringify wd⟩]⟩,
       cacheSet cache (currentCacheKey city) ⟨wd, env.now⟩, [city]⟩ := by
    simp [handleReadResource, hmatch, hdec, hmiss, hfetch, hnorm]
  refine ⟨by rw [hout], by rw [hout]; exact cacheGet_cacheSet_self _ _ _, ?_⟩
  rcases e1 : jsPath2 d "main" "temp" with e | t <;>
    rcases e2 : descriptionPath d with f | c <;>
      rcases e3 : jsPath2 d "main" "humidity" with g | h <;>
        rcases e4 : jsPath2 d "wind" "speed" with i | w <;>
          simp [normalizeCurrent, e1, e2, e3, e4] at hnorm
  exact ⟨t, c, h, w, rfl, rfl, rfl, rfl, hnorm.symm⟩

/-- Witness for C8: the sample payload carries its own upstream time field
`dt`, and the cached snapshot's `timestamp` is the read-time clock value
instead. -/
theorem claim_c8_witness :
    (handleReadResource some sampleEnv [] "weather://London/current").result =
        .ok ⟨[⟨"weather://London/current", "application/json",
              jsonStringify sampleSnapshot⟩]⟩ ∧
    cacheGet (handleReadResource some sampleEnv [] "weather://London/current").cache
        (currentCacheKey "London") = some ⟨sampleSnapshot, sampleEnv.now⟩ ∧
    ∃ t c h w, jsPath2 sampleCurrentData "main" "temp" = .ok t ∧
      descriptionPath sampleCurrentData = .ok c ∧
      jsPath2 sampleCurrentData "main" "humidity" = .ok h ∧
      jsPath2 sampleCurrentData "wind" "speed" = .ok w ∧
      sampleSnapshot = JVal.obj [("temperature", t), ("conditions", c), ("humidity", h),
                     ("wind_speed", w), ("timestamp", JVal.str sampleEnv.nowISO)] :=
  claim_c8_snapshot_normalization some sampleEnv [] "weather://London/current" "London"
    "London" sampleCurrentData sampleSnapshot
    (by decide) (by rfl) (by rfl) (by rfl) (by rfl)

/-- C9: when the upstream fetch fails (axios error or any other throw),
neither handler writes to the cache, so a subsequent identical request
behaves exactly like the first and issues its own upstream call. -/
theorem claim_c9_failures_never_cached (dec : String → Option String) (env : Env)
    (cache : Cache) (uri seg city : String) (args : JVal)
    (hmatch : matchWeatherUri uri = some seg)
    (hdec : dec seg = some city)
    (hmissR : freshEntry env.now (cacheGet cache (currentCacheKey city)) = none)
    (hfailR : (∃ rm m, env.fetchCurrent city = .axiosError rm m) ∨
      env.fetchCurrent city = .nonAxiosError)
    (hvalid : isValidForecastArgs args = true)
    (hmissT : freshEntry env.now (cacheGet cache
        (forecastCacheKey (cityOfArgs args) (effectiveDays (daysArgOf args)))) = none)
    (hfailT : (∃ rm m, env.fetchForecast (cityOfArgs args)
          (effectiveDays (daysArgOf args) * 8) = .axiosError rm m) ∨
      env.fetchForecast (cityOfArgs args) (effectiveDays (daysArgOf args) * 8)
        = .nonAxiosError) :
    (handleReadResource dec env cache uri).cache = cache ∧
    (handleReadResource dec env cache uri).upstreamCalls = [city] ∧
    handleReadResource dec env (handleReadResource dec env cache uri).cache uri
      = handleReadResource dec env cache uri ∧
    (handleCallTool env cache "get_forecast" args).cache = cache ∧
    (handleCallTool env cache "get_forecast" args).upstreamCalls
      = [(cityOfArgs args, effectiveDays (daysArgOf args) * 8)] ∧
    handleCallTool env (handleCallTool env cache "get_forecast" args).cache
        "get_forecast" args
      = handleCallTool env cache "get_forecast" args := by
  obtain ⟨hRc, hRu⟩ : (handleReadResource dec env cache uri).cache = cache ∧
      (handleReadResource dec env cache uri).upstreamCalls = [city] := by
    rcases hfailR with ⟨rm, m, hf⟩ | hf <;>
      simp [handleReadResource, hmatch, hdec, hmissR, hf]
  obtain ⟨hTc, hTu⟩ : (handleCallTool env cache "get_forecast" args).cache = cache ∧
      (handleCallTool env cache "get_forecast" args).upstreamCalls
        = [(cityOfArgs args, effectiveDays (daysArgOf args) * 8)] := by
    rcases hfailT with ⟨rm, m, hf⟩ | hf <;>
      simp [handleCallTool, hvalid, hmissT, hf]
  exact ⟨hRc, hRu, by rw [hRc], hTc, hTu, by rw [hTc]⟩

/-- Witness for C9 at the failing sample environment. -/
theorem claim_c9_witness :
    (handleReadResource some failEnv [] "weather://Nowhere/current").cache = [] ∧
    (handleReadResource some failEnv [] "weather://Nowhere/current").upstreamCalls
      = ["Nowhere"] ∧
    handleReadResource some failEnv
        (handleReadResource some failEnv [] "weather://Nowhere/current").cache
        "weather://Nowhere/current"
      = handleReadResource some failEnv [] "weather://Nowhere/current" ∧
    (handleCallTool failEnv [] "get_forecast"
        (JVal.obj [("city", JVal.str "Nowhere")])).cache = [] ∧
    (handleCallTool failEnv [] "get_forecast"
        (JVal.obj [("city", JVal.str "Nowhere")])).upstreamCalls
      = [(cityOfArgs (JVal.obj [("city", JVal.str "Nowhere")]),
          effectiveDays (daysArgOf (JVal.obj [("city", JVal.str "Nowhere")])) * 8)] ∧
    handleCallTool failEnv
        (handleCallTool failEnv [] "get_forecast"
          (JVal.obj [("city", JVal.str "Nowhere")])).cache
        "get_forecast" (JVal.obj [("city", JVal.str "Nowhere")])
      = handleCallTool failEnv [] "get_forecast"
          (JVal.obj [("city", JVal.str "Nowhere")]) :=
  claim_c9_failures_never_cached some failEnv [] "weather://Nowhere/current" "Nowhere"
    "Nowhere" (JVal.obj [("city", JVal.str "Nowhere")])
    (by decide) (by rfl) (by rfl)
    (Or.inl ⟨some "city not found", "Request failed with status code 404", rfl⟩)
    (by decide) (by rfl)
    (Or.inl ⟨some "city not found", "Request failed with status code 404", rfl⟩)

/-- C10, counterexample: `weather://a\nb/current` has the form
`weather://<X>/current` with the non-empty segment `a\nb`, yet the
JavaScript regex rejects it (`.` does not match a line terminator), so the
handler fails with an invalid-request error instead of accepting it. -/
theorem claim_c10_counterexample :
    matchWeatherUri "weather://a\nb/current" = none ∧
    (handleReadResource some sampleEnv [] "weather://a\nb/current").result =
      .mcpError .InvalidRequest ("Invalid URI format: " ++ "weather://a\nb/current") := by
  constructor
  · decide
  · rfl

/-- C10, amended: every URI obtained by gluing `weather://`, a non-empty
segment X free of line terminators, and `/current` matches the pattern,
and when `decodeURIComponent` decodes X without throwing, the request is
accepted and the decoding of X is the city used for the cache key and the
upstream query; X is matched greedily and may itself contain `/` (for
example `a/b`, and `a/current` in `weather://a/current/current`).  When
decoding throws instead — a malformed percent-escape such as a stray `%` —
the `URIError` propagates and nothing is cached or fetched, which is the
content of `handleReadResource_decode_failure` above. -/
theorem claim_c10_amended_uri_acceptance (dec : String → Option String) (env : Env)
    (cache : Cache) (X : List Char) (city : String) (d wd : JVal)
    (hne : X ≠ [])
    (hnl : ∀ c ∈ X, lineTerminator c = false)
    (hdec : dec (String.mk X) = some city)
    (hmiss : freshEntry env.now (cacheGet cache (currentCacheKey city)) = none)
    (hfetch : env.fetchCurrent city = .ok d)
    (hnorm : normalizeCurrent d env.nowISO = .ok wd) :
    matchWeatherUri (String.mk ("weather://".data ++ X ++ "/current".data))
      = some (String.mk X) ∧
    (handleReadResource dec env cache
        (String.mk ("weather://".data ++ X ++ "/current".data))).upstreamCalls
      = [city] ∧
    cacheGet (handleReadResource dec env cache
        (String.mk ("weather://".data ++ X ++ "/current".data))).cache
        (currentCacheKey city)
      = some ⟨wd, env.now⟩ ∧
    matchWeatherUri "weather://a/b/current" = some "a/b" ∧
    matchWeatherUri "weather://a/current/current" = some "a/current" := by
  have hm := matchWeatherUri_concat X hne hnl
  have hout : handleReadResource dec env cache
      (String.mk ("weather://".data ++ X ++ "/current".data)) =
      ⟨.ok ⟨[⟨String.mk ("weather://".data ++ X ++ "/current".data),
             "application/json", jsonStringify wd⟩]⟩,
       cacheSet cache (currentCacheKey city) ⟨wd, env.now⟩, [city]⟩ := by
    unfold handleReadResource
    rw [hm]
    simp [hdec, hmiss, hfetch, hnorm]
  exact ⟨hm, by rw [hout], by rw [hout]; exact cacheGet_cacheSet_self _ _ _,
         by decide, by decide⟩

/-- Witness for C10's amended theorem at X = `London` (which decodes to
itself). -/
theorem claim_c10_amended_witness :
    matchWeatherUri (String.mk ("weather://".data ++ "London".data ++ "/current".data))
      = some (String.mk "London".data) ∧
    (handleReadResource some sampleEnv []
        (String.mk ("weather://".data ++ "London".data ++ "/current".data))).upstreamCalls
      = ["London"] ∧
    cacheGet (handleReadResource some sampleEnv []
        (String.mk ("weather://".data ++ "London".data ++ "/current".data))).cache
        (currentCacheKey "London")
      = some ⟨sampleSnapshot, sampleEnv.now⟩ ∧
    matchWeatherUri "weather://a/b/current" = some "a/b" ∧
    matchWeatherUri "weather://a/current/current" = some "a/current" :=
  claim_c10_amended_uri_acceptance some sampleEnv [] "London".data "London"
    sampleCurrentData sampleSnapshot
    (by decide) (by decide) (by rfl) (by rfl) (by rfl) (by rfl)
